import Mathlib

/-!
Verification of the motor test sequencer in
`src/1-circuit-test/1-circuit-test.ino`.

The sketch drives four PWM outputs (one per motor) through a fixed
12-step demonstration sequence.  We embed the sketch shallowly:

* `Outputs` holds the duty cycle last written to each of the four
  PWM pins (pins 9, 10, 5, 6).  `analogWrite` updates the output for
  a pin; writes to any other pin are ignored (no such write occurs in
  the sketch).
* `setAllMotors`, `runTest` and `setup` mirror the corresponding C
  functions line by line.
* `tick` is one iteration of `loop()`: run the current test, then
  advance `currentTest`, wrapping at `TOTAL_TESTS`.  (`delay` only
  consumes wall-clock time and has no effect on the modelled state.)
* `runTestWrites` lists the `analogWrite` calls (pin, value) that
  `runTest` performs for a given argument, in order; the lemma
  `runTest_eq_applyWrites` ties it to `runTest`.
-/

namespace CircuitTest

def FRONT_RIGHT_PIN : Nat := 9
def BACK_RIGHT_PIN : Nat := 10
def FRONT_LEFT_PIN : Nat := 5
def BACK_LEFT_PIN : Nat := 6

def SPEED_LOW : Int := 100
def SPEED_MEDIUM : Int := 180
def SPEED_HIGH : Int := 255

def TOTAL_TESTS : Int := 12

/-- Duty cycle last written to each of the four motor pins. -/
structure Outputs where
  frontRight : Int
  backRight : Int
  frontLeft : Int
  backLeft : Int
deriving DecidableEq, Repr

/-- `analogWrite(pin, value)`: record `value` as the duty cycle of `pin`.
Pins other than the four motor pins are untouched state. -/
def analogWrite (pin : Nat) (value : Int) (o : Outputs) : Outputs :=
  if pin = FRONT_RIGHT_PIN then { o with frontRight := value }
  else if pin = BACK_RIGHT_PIN then { o with backRight := value }
  else if pin = FRONT_LEFT_PIN then { o with frontLeft := value }
  else if pin = BACK_LEFT_PIN then { o with backLeft := value }
  else o

/-- `setAllMotors(speed)`: four `analogWrite` calls, in source order. -/
def setAllMotors (speed : Int) (o : Outputs) : Outputs :=
  analogWrite BACK_LEFT_PIN speed
    (analogWrite FRONT_LEFT_PIN speed
      (analogWrite BACK_RIGHT_PIN speed
        (analogWrite FRONT_RIGHT_PIN speed o)))

/-- `runTest(test)`: the `switch` statement, one branch per `case`;
no `default`, so any other argument falls through with no write. -/
def runTest (test : Int) (o : Outputs) : Outputs :=
  if test = 0 then setAllMotors 0 o
  else if test = 1 then analogWrite FRONT_RIGHT_PIN SPEED_MEDIUM (setAllMotors 0 o)
  else if test = 2 then analogWrite BACK_RIGHT_PIN SPEED_MEDIUM (setAllMotors 0 o)
  else if test = 3 then analogWrite FRONT_LEFT_PIN SPEED_MEDIUM (setAllMotors 0 o)
  else if test = 4 then analogWrite BACK_LEFT_PIN SPEED_MEDIUM (setAllMotors 0 o)
  else if test = 5 then
    analogWrite BACK_RIGHT_PIN SPEED_MEDIUM
      (analogWrite FRONT_RIGHT_PIN SPEED_MEDIUM (setAllMotors 0 o))
  else if test = 6 then
    analogWrite BACK_LEFT_PIN SPEED_MEDIUM
      (analogWrite FRONT_LEFT_PIN SPEED_MEDIUM (setAllMotors 0 o))
  else if test = 7 then
    analogWrite FRONT_LEFT_PIN SPEED_MEDIUM
      (analogWrite FRONT_RIGHT_PIN SPEED_MEDIUM (setAllMotors 0 o))
  else if test = 8 then
    analogWrite BACK_LEFT_PIN SPEED_MEDIUM
      (analogWrite BACK_RIGHT_PIN SPEED_MEDIUM (setAllMotors 0 o))
  else if test = 9 then setAllMotors SPEED_LOW o
  else if test = 10 then setAllMotors SPEED_MEDIUM o
  else if test = 11 then setAllMotors SPEED_HIGH o
  else o

/-- `setup()`: after the four `pinMode` calls (direction only, no duty
cycle effect), `setAllMotors(0)`. -/
def setup (o : Outputs) : Outputs :=
  setAllMotors 0 o

/-- Program state: the global `currentTest` plus the four outputs. -/
structure SimState where
  currentTest : Int
  outputs : Outputs
deriving DecidableEq, Repr

/-- One iteration of `loop()`: `runTest(currentTest)`, then
`currentTest++` with reset to `0` once it reaches `TOTAL_TESTS`. -/
def tick (s : SimState) : SimState :=
  { currentTest :=
      if s.currentTest + 1 ≥ TOTAL_TESTS then 0 else s.currentTest + 1,
    outputs := runTest s.currentTest s.outputs }

/-- `k` iterations of `loop()`. -/
def tickN : Nat → SimState → SimState
  | 0, s => s
  | k + 1, s => tickN k (tick s)

/-- State at startup: `currentTest` has initializer `0`; `setup()` has
run (pins start at duty `0` and `setup` rewrites them all to `0`). -/
def initState : SimState :=
  { currentTest := 0, outputs := setup (Outputs.mk 0 0 0 0) }

/-- The sequence of `analogWrite(pin, value)` calls of `setAllMotors`. -/
def setAllMotorsWrites (speed : Int) : List (Nat × Int) :=
  [(FRONT_RIGHT_PIN, speed), (BACK_RIGHT_PIN, speed),
   (FRONT_LEFT_PIN, speed), (BACK_LEFT_PIN, speed)]

/-- The sequence of `analogWrite(pin, value)` calls of `runTest`,
branch by branch. -/
def runTestWrites (test : Int) : List (Nat × Int) :=
  if test = 0 then setAllMotorsWrites 0
  else if test = 1 then setAllMotorsWrites 0 ++ [(FRONT_RIGHT_PIN, SPEED_MEDIUM)]
  else if test = 2 then setAllMotorsWrites 0 ++ [(BACK_RIGHT_PIN, SPEED_MEDIUM)]
  else if test = 3 then setAllMotorsWrites 0 ++ [(FRONT_LEFT_PIN, SPEED_MEDIUM)]
  else if test = 4 then setAllMotorsWrites 0 ++ [(BACK_LEFT_PIN, SPEED_MEDIUM)]
  else if test = 5 then
    setAllMotorsWrites 0 ++ [(FRONT_RIGHT_PIN, SPEED_MEDIUM), (BACK_RIGHT_PIN, SPEED_MEDIUM)]
  else if test = 6 then
    setAllMotorsWrites 0 ++ [(FRONT_LEFT_PIN, SPEED_MEDIUM), (BACK_LEFT_PIN, SPEED_MEDIUM)]
  else if test = 7 then
    setAllMotorsWrites 0 ++ [(FRONT_RIGHT_PIN, SPEED_MEDIUM), (FRONT_LEFT_PIN, SPEED_MEDIUM)]
  else if test = 8 then
    setAllMotorsWrites 0 ++ [(BACK_RIGHT_PIN, SPEED_MEDIUM), (BACK_LEFT_PIN, SPEED_MEDIUM)]
  else if test = 9 then setAllMotorsWrites SPEED_LOW
  else if test = 10 then setAllMotorsWrites SPEED_MEDIUM
  else if test = 11 then setAllMotorsWrites SPEED_HIGH
  else []

/-- Replay a list of `analogWrite` calls, first to last. -/
def applyWrites (ws : List (Nat × Int)) (o : Outputs) : Outputs :=
  ws.foldl (fun a w => analogWrite w.1 w.2 a) o

/-- The 12-row test table, read off the spec (one row per step; the
same values appear in the `switch` of `runTest`, which is what the
theorems compare it against). Row: duty for FR, BR, FL, BL. -/
def specTable (i : Int) : Outputs :=
  if i = 0 then Outputs.mk 0 0 0 0
  else if i = 1 then Outputs.mk 180 0 0 0
  else if i = 2 then Outputs.mk 0 180 0 0
  else if i = 3 then Outputs.mk 0 0 180 0
  else if i = 4 then Outputs.mk 0 0 0 180
  else if i = 5 then Outputs.mk 180 180 0 0
  else if i = 6 then Outputs.mk 0 0 180 180
  else if i = 7 then Outputs.mk 180 0 180 0
  else if i = 8 then Outputs.mk 0 180 0 180
  else if i = 9 then Outputs.mk 100 100 100 100
  else if i = 10 then Outputs.mk 180 180 180 180
  else if i = 11 then Outputs.mk 255 255 255 255
  else Outputs.mk 0 0 0 0

/-- Inside the table, the result of `runTest` does not depend on the
previous output state. -/
theorem runTest_indep_of_state (t : Int) (h0 : 0 ≤ t) (h1 : t < 12)
    (o o' : Outputs) : runTest t o = runTest t o' := by
  interval_cases t <;> rfl

/-- Outside the table, `runTest` leaves the outputs unchanged
(the `switch` has no `default` case). -/
theorem runTest_out_of_range (t : Int) (o : Outputs)
    (h : t < 0 ∨ 12 ≤ t) : runTest t o = o := by
  have e0 : ¬ t = 0 := by omega
  have e1 : ¬ t = 1 := by omega
  have e2 : ¬ t = 2 := by omega
  have e3 : ¬ t = 3 := by omega
  have e4 : ¬ t = 4 := by omega
  have e5 : ¬ t = 5 := by omega
  have e6 : ¬ t = 6 := by omega
  have e7 : ¬ t = 7 := by omega
  have e8 : ¬ t = 8 := by omega
  have e9 : ¬ t = 9 := by omega
  have e10 : ¬ t = 10 := by omega
  have e11 : ¬ t = 11 := by omega
  simp only [runTest, if_neg e0, if_neg e1, if_neg e2, if_neg e3,
    if_neg e4, if_neg e5, if_neg e6, if_neg e7, if_neg e8, if_neg e9,
    if_neg e10, if_neg e11]

/-- Outside the table, `runTest` performs no `analogWrite` call. -/
theorem runTestWrites_out_of_range (t : Int)
    (h : t < 0 ∨ 12 ≤ t) : runTestWrites t = [] := by
  have e0 : ¬ t = 0 := by omega
  have e1 : ¬ t = 1 := by omega
  have e2 : ¬ t = 2 := by omega
  have e3 : ¬ t = 3 := by omega
  have e4 : ¬ t = 4 := by omega
  have e5 : ¬ t = 5 := by omega
  have e6 : ¬ t = 6 := by omega
  have e7 : ¬ t = 7 := by omega
  have e8 : ¬ t = 8 := by omega
  have e9 : ¬ t = 9 := by omega
  have e10 : ¬ t = 10 := by omega
  have e11 : ¬ t = 11 := by omega
  simp only [runTestWrites, if_neg e0, if_neg e1, if_neg e2, if_neg e3,
    if_neg e4, if_neg e5, if_neg e6, if_neg e7, if_neg e8, if_neg e9,
    if_neg e10, if_neg e11]

/-- `runTestWrites` replayed with `analogWrite` is exactly `runTest`. -/
theorem runTest_eq_applyWrites (t : Int) (o : Outputs) :
    runTest t o = applyWrites (runTestWrites t) o := by
  rcases lt_or_le t 0 with h | h0
  · rw [runTest_out_of_range t o (Or.inl h),
      runTestWrites_out_of_range t (Or.inl h)]
    rfl
  · rcases lt_or_le t 12 with h1 | h
    · interval_cases t <;> rfl
    · rw [runTest_out_of_range t o (Or.inr h),
        runTestWrites_out_of_range t (Or.inr h)]
      rfl

/-- Projection of `tick` to the index field. -/
theorem tick_currentTest (s : SimState) :
    (tick s).currentTest =
      if s.currentTest + 1 ≥ TOTAL_TESTS then 0 else s.currentTest + 1 := rfl

/-- The index stays in `[0, 12)` along any run of `tickN`. -/
theorem tickN_inv (k : Nat) : ∀ s : SimState,
    0 ≤ s.currentTest → s.currentTest < 12 →
    0 ≤ (tickN k s).currentTest ∧ (tickN k s).currentTest < 12 := by
  induction k with
  | zero => exact fun s h0 h1 => ⟨h0, h1⟩
  | succ k ih =>
    intro s h0 h1
    have hb : 0 ≤ (tick s).currentTest ∧ (tick s).currentTest < 12 := by
      rw [tick_currentTest]
      simp only [TOTAL_TESTS]
      split <;> omega
    exact ih (tick s) hb.1 hb.2

/-- C1: one iteration of `loop()` from any state with in-range index
`i` first applies test `i` to the outputs via `runTest i` and then sets
the index to `(i + 1) % 12`: the increment with conditional reset
computes exactly `(i + 1) % 12`. -/
theorem C1_tick_applies_step_then_advances (i : Int) (o : Outputs)
    (h0 : 0 ≤ i) (h1 : i < 12) :
    tick (SimState.mk i o) = SimState.mk ((i + 1) % 12) (runTest i o) := by
  simp only [tick, TOTAL_TESTS, SimState.mk.injEq]
  refine ⟨?_, trivial⟩
  split <;> omega

/-- C1 witness: at the wrap-around index `11` with concrete outputs. -/
theorem C1_witness :
    tick (SimState.mk 11 (Outputs.mk 1 2 3 4)) =
      SimState.mk ((11 + 1) % 12) (runTest 11 (Outputs.mk 1 2 3 4)) :=
  C1_tick_applies_step_then_advances 11 (Outputs.mk 1 2 3 4)
    (by decide) (by decide)

/-- C2: for every in-range index `i`, `runTest i` drives the four
outputs exactly to row `i` of the test table, whatever the outputs
were before. -/
theorem C2_runTest_matches_table (i : Int) (o : Outputs)
    (h0 : 0 ≤ i) (h1 : i < 12) :
    runTest i o = specTable i := by
  interval_cases i <;> rfl

/-- C2 witness: step `5` (right side) from nonzero prior outputs. -/
theorem C2_witness :
    runTest 5 (Outputs.mk 9 9 9 9) = specTable 5 :=
  C2_runTest_matches_table 5 (Outputs.mk 9 9 9 9) (by decide) (by decide)

/-- C3: the index starts at `0` and, after every finite number of
`tick` transitions from the startup state, is a valid index into the
12-entry table. -/
theorem C3_index_invariant :
    initState.currentTest = 0 ∧
    ∀ k : Nat, 0 ≤ (tickN k initState).currentTest ∧
      (tickN k initState).currentTest < 12 :=
  ⟨rfl, fun k => tickN_inv k initState (by decide) (by decide)⟩

/-- C4: from any in-range starting index, 12 ticks return the index to
its starting value. -/
theorem C4_cycle_of_length_12 (i : Int) (o : Outputs)
    (h0 : 0 ≤ i) (h1 : i < 12) :
    (tickN 12 (SimState.mk i o)).currentTest = i := by
  interval_cases i <;> rfl

/-- C4 witness: starting index `7` with concrete outputs. -/
theorem C4_witness :
    (tickN 12 (SimState.mk 7 (Outputs.mk 1 2 3 4))).currentTest = 7 :=
  C4_cycle_of_length_12 7 (Outputs.mk 1 2 3 4) (by decide) (by decide)

/-- C5 counterexample: starting from index 0 with all outputs 0, the
first tick applies step 0 (all off), so front-right reads 0, not 180;
and the twelfth tick applies step 11 (all at 255), so after 12 ticks
the outputs read 255 each, not 0 — although the index is back at 0. -/
theorem C5_counterexample :
    (tickN 1 initState).outputs.frontRight = 0 ∧
    (tickN 12 initState).outputs = Outputs.mk 255 255 255 255 ∧
    ¬ ((tickN 1 initState).outputs.frontRight = 180 ∧
       (tickN 1 initState).outputs.backRight = 0 ∧
       (tickN 1 initState).outputs.frontLeft = 0 ∧
       (tickN 1 initState).outputs.backLeft = 0 ∧
       (tickN 12 initState).currentTest = 0 ∧
       (tickN 12 initState).outputs = Outputs.mk 0 0 0 0) := by
  decide

/-- C5 amended: starting from index 0 with all outputs 0, after 1 tick
the index is 1 and all outputs still read 0; the front-right channel
reads 180 with the others 0 after the second tick; after 12 ticks the
index has returned to 0 while all outputs read 255 (the step-11
values), and all outputs read 0 again after the 13th tick. -/
theorem C5_startup_scenario :
    tickN 1 initState = SimState.mk 1 (Outputs.mk 0 0 0 0) ∧
    (tickN 2 initState).outputs = Outputs.mk 180 0 0 0 ∧
    (tickN 12 initState).currentTest = 0 ∧
    (tickN 12 initState).outputs = Outputs.mk 255 255 255 255 ∧
    (tickN 13 initState).outputs = Outputs.mk 0 0 0 0 := by
  decide

/-- C6: `runTest` is idempotent in the output state, for every integer
argument, in range or not. -/
theorem C6_runTest_idempotent (t : Int) (o : Outputs) :
    runTest t (runTest t o) = runTest t o := by
  rcases lt_or_le t 0 with h | h0
  · rw [runTest_out_of_range t o (Or.inl h)]
    exact runTest_out_of_range t o (Or.inl h)
  · rcases lt_or_le t 12 with h1 | h
    · exact runTest_indep_of_state t h0 h1 (runTest t o) o
    · rw [runTest_out_of_range t o (Or.inr h)]
      exact runTest_out_of_range t o (Or.inr h)

/-- C7: every duty-cycle value `runTest` ever writes to an output is
in `[0, 255]` (the table only uses 0, 100, 180 and 255). -/
theorem C7_written_values_in_range (t : Int) (w : Nat × Int)
    (hw : w ∈ runTestWrites t) : 0 ≤ w.2 ∧ w.2 ≤ 255 := by
  have h : ∀ x ∈ runTestWrites t, 0 ≤ x.2 ∧ x.2 ≤ 255 := by
    rcases lt_or_le t 0 with h | h0
    · rw [runTestWrites_out_of_range t (Or.inl h)]
      intro x hx
      cases hx
    · rcases lt_or_le t 12 with h1 | h
      · interval_cases t <;> decide
      · rw [runTestWrites_out_of_range t (Or.inr h)]
        intro x hx
        cases hx
  exact h w hw

/-- C7 witness: the medium-speed write of step 1. -/
theorem C7_witness :
    0 ≤ ((FRONT_RIGHT_PIN, SPEED_MEDIUM) : Nat × Int).2 ∧
      ((FRONT_RIGHT_PIN, SPEED_MEDIUM) : Nat × Int).2 ≤ 255 :=
  C7_written_values_in_range 1 (FRONT_RIGHT_PIN, SPEED_MEDIUM) (by decide)

/-- C8: `setup()` unconditionally drives all four outputs to 0,
whatever their prior state. -/
theorem C8_setup_all_off (o : Outputs) :
    setup o = Outputs.mk 0 0 0 0 := rfl

/-- Execution relation: `Run k s tr` holds when, starting from the
startup state, `k` iterations of `loop()` can reach state `s` having
issued exactly the `analogWrite` calls `tr`, in order. -/
inductive Run : Nat → SimState → List (Nat × Int) → Prop where
  | start : Run 0 initState []
  | step : ∀ {k s tr}, Run k s tr →
      Run (k + 1) (tick s) (tr ++ runTestWrites s.currentTest)

/-- C9: the sequencer is deterministic: two runs of the same length
from the startup state reach the same state and issue the same
sequence of output writes. -/
theorem C9_deterministic (k : Nat) (s₁ s₂ : SimState)
    (tr₁ tr₂ : List (Nat × Int))
    (h₁ : Run k s₁ tr₁) (h₂ : Run k s₂ tr₂) : s₁ = s₂ ∧ tr₁ = tr₂ := by
  induction h₁ generalizing s₂ tr₂ with
  | start =>
    cases h₂
    exact ⟨rfl, rfl⟩
  | step h ih =>
    cases h₂ with
    | step h' =>
      obtain ⟨hs, ht⟩ := ih _ _ h'
      rw [hs, ht]
      exact ⟨rfl, rfl⟩

/-- C9 witness: two one-tick runs coincide. -/
theorem C9_witness :
    tick initState = tick initState ∧
    ([] ++ runTestWrites initState.currentTest) =
      ([] ++ runTestWrites initState.currentTest) :=
  C9_deterministic 1 _ _ _ _ (Run.step Run.start) (Run.step Run.start)

/-- C10: for any argument outside `[0, 11]`, `runTest` performs no
output write and leaves the outputs unchanged. -/
theorem C10_out_of_range_no_effect (t : Int) (o : Outputs)
    (h : t < 0 ∨ 12 ≤ t) :
    runTest t o = o ∧ runTestWrites t = [] :=
  ⟨runTest_out_of_range t o h, runTestWrites_out_of_range t h⟩

/-- C10 witness: argument 12 (one past the table) with concrete
outputs. -/
theorem C10_witness :
    runTest 12 (Outputs.mk 1 2 3 4) = Outputs.mk 1 2 3 4 ∧
      runTestWrites 12 = [] :=
  C10_out_of_range_no_effect 12 (Outputs.mk 1 2 3 4) (Or.inr (by decide))

end CircuitTest
